import Mathlib

/-!
Verification of the flask-studio project analyzer and launcher-string
detector.  The Python sources (flask_studio.py, flask_studio_pro.py,
flask_studio_with_routing_options.py) are shallowly embedded: file
contents are lists of characters, a project is the walk-ordered list of
its .py files together with their contents (`none` marks a file whose
read fails with a decode or permission error), and every substring or
regular-expression test of the source is translated into an executable
function over character lists.  The concrete regular expressions used by
the source are implemented as exact matchers: each pattern mixes literal
text, the classes \w, \s, [\w.], [^)] and quote alternatives, and since
every greedy class in those patterns is followed by a character outside
the class, maximal-munch scanning with no backtracking reproduces the
Python engine exactly (the one backtracking case, [\w.]+ before literal
.create_app, is handled by a suffix test on the maximal run).
-/

abbrev Str := List Char

def str (s : String) : Str := s.data

/-- Character class \w of the Python patterns (ASCII model). -/
def isWordChar (c : Char) : Bool := c.isAlphanum || c == '_'

/-- Character class \s of the Python patterns. -/
def isSpaceChar (c : Char) : Bool :=
  c == ' ' || c == '\t' || c == '\n' || c == '\r' || c == Char.ofNat 11 || c == Char.ofNat 12

/-- Python substring containment, `needle in hay`. -/
def containsSub (needle : Str) (hay : Str) : Bool :=
  match hay with
  | [] => needle.isEmpty
  | _ :: rest => needle.isPrefixOf hay || containsSub needle rest

/-- Python str.replace, fuelled for structural recursion: each step
consumes at least one character, so fuel equal to the input length is
enough. -/
def replaceSubF (needle repl : Str) : Nat → Str → Str
  | 0, hay => hay
  | _, [] => []
  | fuel + 1, c :: rest =>
    if needle.isEmpty then c :: rest
    else if needle.isPrefixOf (c :: rest) then
      repl ++ replaceSubF needle repl fuel ((c :: rest).drop needle.length)
    else
      c :: replaceSubF needle repl fuel rest

/-- Python str.replace: replace every non-overlapping occurrence, left to right. -/
def replaceSub (needle repl hay : Str) : Str :=
  replaceSubF needle repl hay.length hay

/-- Index of the last occurrence of a character, Python str.rfind. -/
def rfindIdx (c : Char) (l : Str) : Option Nat :=
  ((l.enum.filter (fun p => p.2 == c)).map (fun p => p.1)).getLast?

/-- os.path.splitext on a POSIX path: the extension starts at the last dot
of the basename, except that a basename consisting only of leading dots
before that dot has no extension. -/
def splitext (p : Str) : Str × Str :=
  let sepIndex : Int := match rfindIdx '/' p with | some i => (i : Int) | none => -1
  let dotIndex : Int := match rfindIdx '.' p with | some i => (i : Int) | none => -1
  if sepIndex < dotIndex then
    let d := dotIndex.toNat
    let fStart := (sepIndex + 1).toNat
    if (List.range (d - fStart)).any (fun k => !(p.getD (fStart + k) '.' == '.')) then
      (p.take d, p.drop d)
    else (p, [])
  else (p, [])

/-- os.path.basename on a POSIX path. -/
def basename (p : Str) : Str :=
  match rfindIdx '/' p with
  | some i => p.drop (i + 1)
  | none => p

/-- Python str.lower (ASCII model). -/
def lowerStr (l : Str) : Str := l.map Char.toLower

/-- Scan positions left to right; at a match (k consumed characters, at
least one) resume after it, otherwise advance one position.  This is
re.findall semantics for non-overlapping matches; the scan is fuelled
for structural recursion, fuel equal to the input length sufficing since
every step consumes at least one character. -/
def findAllAux (m : Str → Option (α × Nat)) : Nat → Str → List α
  | 0, _ => []
  | _, [] => []
  | fuel + 1, c :: rest =>
    match m (c :: rest) with
    | some (a, k) => a :: findAllAux m fuel ((c :: rest).drop (max k 1))
    | none => findAllAux m fuel rest

/-- re.findall for an unanchored pattern: the matcher returns the capture
together with the remainder of the input after the match. -/
def findAll (m : Str → Option (α × Str)) (l : Str) : List α :=
  findAllAux (fun s => (m s).map (fun p => (p.1, s.length - p.2.length))) l.length l

/-- Scan for a pattern anchored with ^ under re.MULTILINE: a match may
start only at position 0 or right after a newline.  Fuelled like
findAllAux. -/
def findAllBOLAux (m : Str → Option (α × Nat)) : Nat → Str → Bool → List α
  | 0, _, _ => []
  | _, [], _ => []
  | fuel + 1, c :: rest, bol =>
    match (if bol then m (c :: rest) else none) with
    | some (a, k) =>
      a :: findAllBOLAux m fuel ((c :: rest).drop (max k 1))
        ((c :: rest).getD (max k 1 - 1) ' ' == '\n')
    | none => findAllBOLAux m fuel rest (c == '\n')

/-- re.findall for a ^-anchored pattern under re.MULTILINE. -/
def findAllBOL (m : Str → Option (α × Str)) (l : Str) : List α :=
  findAllBOLAux (fun s => (m s).map (fun p => (p.1, s.length - p.2.length))) l.length l true

/-- Character class [\w.] of the Python patterns. -/
def isWordDotChar (c : Char) : Bool := isWordChar c || c == '.'

/-- Quote alternative [\x27"] of the Blueprint pattern (39 is the
apostrophe character). -/
def quoteChar (c : Char) : Bool := c == '"' || c == Char.ofNat 39

/-- Matcher for a pattern of the shape (\w+)\s*=\s*RHS\s*\( at the current
position, where RHS is a literal such as Flask or create_app.  Returns
the capture and the rest of the input after the match. -/
def matchAssignAt (rhs : Str) (l : Str) : Option (Str × Str) :=
  let w := l.takeWhile isWordChar
  if w.isEmpty then none else
  match (l.dropWhile isWordChar).dropWhile isSpaceChar with
  | '=' :: r2 =>
    let r3 := r2.dropWhile isSpaceChar
    if rhs.isPrefixOf r3 then
      match (r3.drop rhs.length).dropWhile isSpaceChar with
      | '(' :: r5 => some (w, r5)
      | _ => none
    else none
  | _ => none

/-- Matcher for (\w+)\s*=\s*[\w\.]+\.create_app\s*\( at the current
position.  The maximal [\w.] run must end in .create_app with a nonempty
dotted prefix before it. -/
def matchAssignDotCreateAt (l : Str) : Option (Str × Str) :=
  let w := l.takeWhile isWordChar
  if w.isEmpty then none else
  match (l.dropWhile isWordChar).dropWhile isSpaceChar with
  | '=' :: r2 =>
    let r3 := r2.dropWhile isSpaceChar
    let run := r3.takeWhile isWordDotChar
    if (str ".create_app").isSuffixOf run && (str ".create_app").length < run.length then
      match (r3.dropWhile isWordDotChar).dropWhile isSpaceChar with
      | '(' :: r6 => some (w, r6)
      | _ => none
    else none
  | _ => none

/-- Matcher for (\w+)\s*=\s*application at the current position. -/
def matchAssignAliasAt (l : Str) : Option (Str × Str) :=
  let w := l.takeWhile isWordChar
  if w.isEmpty then none else
  match (l.dropWhile isWordChar).dropWhile isSpaceChar with
  | '=' :: r2 =>
    let r3 := r2.dropWhile isSpaceChar
    if (str "application").isPrefixOf r3 then some (w, r3.drop (str "application").length)
    else none
  | _ => none

/-- Matcher for (LHS)\s*=\s*RHS\s*\( with two literals, as in the
patterns ^(app)\s*=\s*Flask\s*\( of _find_app_variable_in_file. -/
def matchLitAssignAt (lhs rhs : Str) (l : Str) : Option (Str × Str) :=
  if lhs.isPrefixOf l then
    match (l.drop lhs.length).dropWhile isSpaceChar with
    | '=' :: r2 =>
      let r3 := r2.dropWhile isSpaceChar
      if rhs.isPrefixOf r3 then
        match (r3.drop rhs.length).dropWhile isSpaceChar with
        | '(' :: r5 => some (lhs, r5)
        | _ => none
      else none
    | _ => none
  else none

/-- Matcher for (LHS)\s*=\s*[\w\.]+\s*\( with a literal left-hand side,
as in ^(app)\s*=\s*[\w\.]+\s*\(. -/
def matchLitAssignCallAt (lhs : Str) (l : Str) : Option (Str × Str) :=
  if lhs.isPrefixOf l then
    match (l.drop lhs.length).dropWhile isSpaceChar with
    | '=' :: r2 =>
      let r3 := r2.dropWhile isSpaceChar
      if (r3.takeWhile isWordDotChar).isEmpty then none else
      match (r3.dropWhile isWordDotChar).dropWhile isSpaceChar with
      | '(' :: r5 => some (lhs, r5)
      | _ => none
    | _ => none
  else none

/-- Matcher for (\w+)\s*=\s*Blueprint\([\x27"](\w+)[\x27"], capturing the
variable and the declared blueprint name. -/
def matchBlueprintDeclAt (l : Str) : Option ((Str × Str) × Str) :=
  let w := l.takeWhile isWordChar
  if w.isEmpty then none else
  match (l.dropWhile isWordChar).dropWhile isSpaceChar with
  | '=' :: r2 =>
    let r3 := r2.dropWhile isSpaceChar
    if (str "Blueprint(").isPrefixOf r3 then
      match r3.drop (str "Blueprint(").length with
      | q1 :: r4 =>
        if quoteChar q1 then
          let n := r4.takeWhile isWordChar
          if n.isEmpty then none else
          match r4.dropWhile isWordChar with
          | q2 :: r5 => if quoteChar q2 then some ((w, n), r5) else none
          | [] => none
        else none
      | [] => none
    else none
  | _ => none

/-- Matcher for register_blueprint\((\w+). -/
def matchRegisterAt (l : Str) : Option (Str × Str) :=
  if (str "register_blueprint(").isPrefixOf l then
    let r1 := l.drop (str "register_blueprint(").length
    let w := r1.takeWhile isWordChar
    if w.isEmpty then none else some (w, r1.dropWhile isWordChar)
  else none

/-- Matcher for def\s+(NAME1|NAME2|...)\s*\([^)]*\) with an optional
trailing colon, covering the factory definition patterns.  The name
alternatives of the source patterns start with pairwise distinct letters,
so committing to the first alternative that matches is exact. -/
def matchDefNameAt (names : List Str) (requireColon : Bool) (l : Str) : Option (Str × Str) :=
  if (str "def").isPrefixOf l then
    match l.drop (str "def").length with
    | c :: _ =>
      if isSpaceChar c then
        let r2 := (l.drop (str "def").length).dropWhile isSpaceChar
        match names.find? (fun nm => nm.isPrefixOf r2) with
        | some nm =>
          match (r2.drop nm.length).dropWhile isSpaceChar with
          | '(' :: r4 =>
            match r4.dropWhile (fun c => !(c == ')')) with
            | ')' :: r6 =>
              if requireColon then
                match r6 with
                | ':' :: r7 => some (nm, r7)
                | _ => none
              else some (nm, r6)
            | _ => none
          | _ => none
        | none => none
      else none
    | [] => none
  else none

/-- First match of an unanchored search, re.search / first element of
re.findall. -/
def firstSearch (pats : List (Str → Option (Str × Str))) (c : Str) : Option Str :=
  match pats with
  | [] => none
  | m :: rest =>
    match (findAll m c).head? with
    | some v => some v
    | none => firstSearch rest c

/-- First match over an ordered list of ^-anchored MULTILINE patterns,
as in the for-pattern-in-patterns loops of the source. -/
def firstSearchBOL (pats : List (Str → Option (Str × Str))) (c : Str) : Option Str :=
  match pats with
  | [] => none
  | m :: rest =>
    match (findAllBOL m c).head? with
    | some v => some v
    | none => firstSearchBOL rest c

/-- A scanned .py file of the project: relative path (POSIX separators)
and its text, with none when reading fails with a decode or permission
error.  A project is the walk-ordered list of such files. -/
structure PyFile where
  path : Str
  content : Option Str
deriving DecidableEq

/-- A retained per-file fact record, the dict built by find_flask_files. -/
structure FlaskFile where
  path : Str
  has_app_run : Bool
  has_routes : Bool
  has_blueprints : Bool
  is_factory : Bool
  has_app_creation : Bool
  app_variable : Option Str
deriving DecidableEq

/-- A blueprint record of detect_blueprints; varName is the dict key
named variable in the source. -/
structure BlueprintInfo where
  name : Str
  varName : Str
  file : Str
deriving DecidableEq

/-- Re-reading a file of the project by its relative path. -/
def readFile (fs : List PyFile) (p : Str) : Option Str :=
  (fs.find? (fun f => f.path == p)).bind (fun f => f.content)

/-- Existence test for a project file, os.path.exists. -/
def fileExists (fs : List PyFile) (p : Str) : Bool :=
  fs.any (fun f => f.path == p)

namespace FlaskStudioPro

/-- FlaskProjectAnalyzer.is_flask_file of flask_studio_pro.py: a read
failure (UnicodeDecodeError, PermissionError) returns False. -/
def is_flask_file (content : Option Str) : Bool :=
  match content with
  | none => false
  | some c =>
    containsSub (str "from flask import") c ||
    containsSub (str "import flask") c ||
    containsSub (str "Flask(") c ||
    containsSub (str "@app.route") c ||
    containsSub (str "Blueprint(") c ||
    containsSub (str "create_app(") c

/-- FlaskProjectAnalyzer.has_app_run. -/
def has_app_run (content : Option Str) : Bool :=
  match content with
  | none => false
  | some c =>
    containsSub (str "app.run(") c ||
    (containsSub (str "__name__") c && containsSub (str "__main__") c)

/-- FlaskProjectAnalyzer.has_routes. -/
def has_routes (content : Option Str) : Bool :=
  match content with
  | none => false
  | some c =>
    containsSub (str "@app.route") c ||
    containsSub (str "@main.route") c ||
    containsSub (str ".route(") c

/-- FlaskProjectAnalyzer.has_blueprints. -/
def has_blueprints (content : Option Str) : Bool :=
  match content with
  | none => false
  | some c =>
    containsSub (str "Blueprint(") c ||
    containsSub (str "register_blueprint") c

/-- FlaskProjectAnalyzer.is_app_factory. -/
def is_app_factory (content : Option Str) : Bool :=
  match content with
  | none => false
  | some c =>
    containsSub (str "def create_app") c && containsSub (str "return app") c

/-- FlaskProjectAnalyzer.has_app_creation: any of the three assignment
patterns matches somewhere in the file. -/
def has_app_creation (content : Option Str) : Bool :=
  match content with
  | none => false
  | some c =>
    !(findAll (matchAssignAt (str "Flask")) c).isEmpty ||
    !(findAll (matchAssignAt (str "create_app")) c).isEmpty ||
    !(findAll matchAssignDotCreateAt c).isEmpty

/-- FlaskProjectAnalyzer.detect_app_variable: the three patterns are
tried in order, first findall hit wins. -/
def detect_app_variable (content : Option Str) : Option Str :=
  match content with
  | none => none
  | some c =>
    firstSearch [matchAssignAt (str "Flask"), matchAssignAt (str "create_app"),
      matchAssignDotCreateAt] c

/-- The fact dict appended by find_flask_files for a qualifying file. -/
def mkFlaskFile (f : PyFile) : FlaskFile :=
  { path := f.path
    has_app_run := has_app_run f.content
    has_routes := has_routes f.content
    has_blueprints := has_blueprints f.content
    is_factory := is_app_factory f.content
    has_app_creation := has_app_creation f.content
    app_variable := detect_app_variable f.content }

/-- FlaskProjectAnalyzer.find_flask_files over the walk-ordered file
list: a file is retained iff is_flask_file accepts it. -/
def find_flask_files (fs : List PyFile) : List FlaskFile :=
  match fs with
  | [] => []
  | f :: rest =>
    if is_flask_file f.content then mkFlaskFile f :: find_flask_files rest
    else find_flask_files rest

/-- FlaskProjectAnalyzer.detect_routing_pattern of flask_studio_pro.py. -/
def detect_routing_pattern (files : List FlaskFile) : Str :=
  let has_direct_routes := files.any (fun f => f.has_routes && !f.has_blueprints)
  let has_blueprint_routes := files.any (fun f => f.has_blueprints)
  let has_factory := files.any (fun f => f.is_factory)
  if has_factory then str "factory"
  else if has_blueprint_routes then str "blueprint"
  else if has_direct_routes then str "direct"
  else str "unknown"

/-- The priority name list of find_main_app_file in flask_studio_pro.py. -/
def priority_patterns (project_name : Str) : List Str :=
  [project_name ++ str "app.py", project_name ++ str ".py",
   str "wsgi.py", str "app.py", str "run.py", str "main.py", str "server.py"]

/-- The nested priority loop: for each pattern, the first file (walk
order) whose basename equals the pattern exactly or case-insensitively. -/
def findByPatterns (pats : List Str) (files : List FlaskFile) : Option FlaskFile :=
  match pats with
  | [] => none
  | p :: rest =>
    match files.find? (fun f => basename f.path == p || lowerStr (basename f.path) == p) with
    | some f => some f
    | none => findByPatterns rest files

/-- The factory-usage probe of find_main_app_file (flask_studio_pro.py
lines 229-246).  The third element of the Python pattern list is the
boolean expression <if __name__> in content, so when the two string
patterns are absent, any() evaluates <bool> in content, raising
TypeError, which the bare except turns into a skip of the file; hence a
file qualifies only through the two create_app assignment strings. -/
def stepDCheck (content : Option Str) : Bool :=
  match content with
  | none => false
  | some c =>
    containsSub (str "create_app") c &&
    (containsSub (str "app = create_app()") c ||
     containsSub (str "application = create_app()") c)

/-- FlaskProjectAnalyzer.find_main_app_file of flask_studio_pro.py:
runnable files by priority name, then non-package app-creating files by
priority name, then the first runnable file, then the factory-usage
probe over file contents, then factory files (preferring non-package
files). -/
def find_main_app_file (project_path : Str) (files : List FlaskFile) (fs : List PyFile) :
    Option Str :=
  let project_name := lowerStr (basename project_path)
  let pats := priority_patterns project_name
  let runnable_files := files.filter (fun f => f.has_app_run)
  match findByPatterns pats runnable_files with
  | some f => some f.path
  | none =>
  let app_creation_files := files.filter (fun f => f.has_app_creation)
  let non_init_files := app_creation_files.filter (fun f => !(str "__init__.py").isSuffixOf f.path)
  match findByPatterns pats non_init_files with
  | some f => some f.path
  | none =>
  match runnable_files with
  | f :: _ => some f.path
  | [] =>
  match files.find? (fun f => stepDCheck (readFile fs f.path)) with
  | some f => some f.path
  | none =>
  let factory_files := files.filter (fun f => f.is_factory)
  let non_init_factories := factory_files.filter (fun f => !(str "__init__.py").isSuffixOf f.path)
  match non_init_factories with
  | f :: _ => some f.path
  | [] =>
  match factory_files with
  | f :: _ => some f.path
  | [] => none

/-- All Blueprint declaration matches of a file, as (variable, name)
pairs, findall order. -/
def blueprint_decls (c : Str) : List (Str × Str) :=
  findAll matchBlueprintDeclAt c

/-- All register_blueprint(var) capture matches of a file, findall
order. -/
def register_matches (c : Str) : List Str :=
  findAll matchRegisterAt c

/-- The registration loop of detect_blueprints: each captured variable is
appended as a record with name and variable both equal to it, unless some
already collected record has that variable. -/
def register_pass (path : Str) (acc : List BlueprintInfo) (regs : List Str) :
    List BlueprintInfo :=
  match regs with
  | [] => acc
  | v :: rest =>
    if acc.any (fun bp => bp.varName == v) then register_pass path acc rest
    else register_pass path (acc ++ [⟨v, v, path⟩]) rest

/-- The file loop of detect_blueprints: per blueprint-using file, append
all declaration records, then run the registration loop against the
accumulated list; a read failure skips the file. -/
def detect_blueprints_go (fs : List PyFile) (files : List FlaskFile)
    (acc : List BlueprintInfo) : List BlueprintInfo :=
  match files with
  | [] => acc
  | f :: rest =>
    if f.has_blueprints then
      match readFile fs f.path with
      | none => detect_blueprints_go fs rest acc
      | some content =>
        let acc1 := acc ++ (blueprint_decls content).map (fun p => ⟨p.2, p.1, f.path⟩)
        detect_blueprints_go fs rest (register_pass f.path acc1 (register_matches content))
    else detect_blueprints_go fs rest acc

/-- FlaskProjectAnalyzer.detect_blueprints of flask_studio_pro.py. -/
def detect_blueprints (files : List FlaskFile) (fs : List PyFile) : List BlueprintInfo :=
  detect_blueprints_go fs files []

/-- FlaskProjectAnalyzer.detect_app_factory: the first factory-flagged
file whose re-read succeeds and matches def\s+(create_app)\s*\([^)]*\)
yields (function, file); otherwise the scan continues. -/
def detect_app_factory (files : List FlaskFile) (fs : List PyFile) : Option (Str × Str) :=
  match files with
  | [] => none
  | f :: rest =>
    if f.is_factory then
      match readFile fs f.path with
      | some content =>
        match (findAll (matchDefNameAt [str "create_app"] false) content).head? with
        | some fn => some (fn, f.path)
        | none => detect_app_factory rest fs
      | none => detect_app_factory rest fs
    else detect_app_factory rest fs

/-- FlaskProjectAnalyzer.get_recommended_run_method; the main file test
follows Python truthiness, so both absent and empty main files fall to
flask_run. -/
def get_recommended_run_method (routing_pattern : Str) (main_app_file : Option Str)
    (files : List FlaskFile) : Str :=
  if routing_pattern == str "factory" then str "flask_run"
  else
    match main_app_file with
    | some m =>
      if !m.isEmpty && files.any (fun f => f.path == m && f.has_app_run) then str "direct"
      else str "flask_run"
    | none => str "flask_run"

/-- The analysis record returned by FlaskProjectAnalyzer.analyze. -/
structure AnalysisResult where
  flask_files : List FlaskFile
  routing_pattern : Str
  main_app_file : Option Str
  blueprints : List BlueprintInfo
  app_factory : Option (Str × Str)
  recommended_run_method : Str
deriving DecidableEq

/-- FlaskProjectAnalyzer.analyze of flask_studio_pro.py: scan, derive the
routing pattern, pick the main file, extract blueprints and factory, and
recommend the run method.  Every step is a total function, so analysis
never throws. -/
def analyze (project_path : Str) (fs : List PyFile) : AnalysisResult :=
  let files := find_flask_files fs
  let routing := detect_routing_pattern files
  let main := find_main_app_file project_path files fs
  { flask_files := files
    routing_pattern := routing
    main_app_file := main
    blueprints := detect_blueprints files fs
    app_factory := detect_app_factory files fs
    recommended_run_method := get_recommended_run_method routing main files }

end FlaskStudioPro

namespace FlaskStudioRouting

/-- FlaskProjectAnalyzer.detect_routing_pattern of
flask_studio_with_routing_options.py (the near-duplicate variant). -/
def detect_routing_pattern (files : List FlaskFile) : Str :=
  let has_direct_routes := files.any (fun f => f.has_routes && !f.has_blueprints)
  let has_blueprint_routes := files.any (fun f => f.has_blueprints)
  let has_factory := files.any (fun f => f.is_factory)
  if has_factory then str "factory"
  else if has_blueprint_routes then str "blueprint"
  else if has_direct_routes then str "direct"
  else str "unknown"

/-- The priority name list of find_main_app_file in
flask_studio_with_routing_options.py; this variant also lists
package-init files. -/
def priority_patterns (project_name : Str) : List Str :=
  [project_name ++ str "app.py", project_name ++ str ".py",
   str "wsgi.py", str "app.py", str "run.py", str "main.py", str "server.py",
   str "__init__.py"]

/-- FlaskProjectAnalyzer.find_main_app_file of
flask_studio_with_routing_options.py: runnable files by priority name,
app-creating files by priority name, first runnable file, first factory
file, then any retained file. -/
def find_main_app_file (project_path : Str) (files : List FlaskFile) : Option Str :=
  let project_name := lowerStr (basename project_path)
  let pats := priority_patterns project_name
  let runnable_files := files.filter (fun f => f.has_app_run)
  match FlaskStudioPro.findByPatterns pats runnable_files with
  | some f => some f.path
  | none =>
  let app_creation_files := files.filter (fun f => f.has_app_creation)
  match FlaskStudioPro.findByPatterns pats app_creation_files with
  | some f => some f.path
  | none =>
  match runnable_files with
  | f :: _ => some f.path
  | [] =>
  match files.filter (fun f => f.is_factory) with
  | f :: _ => some f.path
  | [] =>
  match files with
  | f :: _ => some f.path
  | [] => none

end FlaskStudioRouting

namespace SmartFlaskDetector

/-- The module path used by the strategies and the fallback:
os.path.splitext(main.replace(sep, dot))[0]. -/
def module_name_of_main (main_app_file : Str) : Str :=
  (splitext (replaceSub (str "\\") (str ".") (replaceSub (str "/") (str ".") main_app_file))).1

/-- SmartFlaskDetector._check_project_specific_files: only for a main
file whose stem ends in app and is longer than three characters; the
first unanchored assignment pattern wins, with app as the default
variable; a failed read falls through to None. -/
def check_project_specific_files (fs : List PyFile) (main_app_file : Str) : Option Str :=
  if main_app_file.isEmpty then none
  else
    let filename_no_ext := (splitext (basename main_app_file)).1
    if (str "app").isSuffixOf filename_no_ext && 3 < filename_no_ext.length then
      match readFile fs main_app_file with
      | none => none
      | some content =>
        match firstSearch [matchAssignAt (str "Flask"), matchAssignAt (str "create_app"),
            matchAssignDotCreateAt] content with
        | some app_var => some (filename_no_ext ++ str ":" ++ app_var)
        | none => some (filename_no_ext ++ str ":app")
    else none

/-- A factory record of _find_app_factories. -/
structure FactoryInfo where
  function : Str
  module : Str
  file : Str
deriving DecidableEq

/-- SmartFlaskDetector._find_app_factories: every factory definition in
every readable project file, with the module path derived from the
relative path and a trailing .__init__ stripped. -/
def find_app_factories (fs : List PyFile) : List FactoryInfo :=
  (fs.map (fun f =>
    match f.content with
    | none => []
    | some content =>
      (findAll (matchDefNameAt [str "create_app", str "make_app", str "app_factory"] true)
          content).map (fun func_name =>
        let module_path0 :=
          replaceSub (str "/") (str ".")
            (replaceSub (str ".py") [] (replaceSub (str "\\") (str "/") f.path))
        let module_path :=
          if (str ".__init__").isSuffixOf module_path0 then
            module_path0.take (module_path0.length - (str ".__init__").length)
          else module_path0
        ⟨func_name, module_path, f.path⟩))).flatten

/-- SmartFlaskDetector._improved_factory_check: when the main file reads
and mentions create_app, a factory-call assignment in it wins; otherwise
the first project-wide factory is reported by bare module path; a failed
read of the main file returns None without consulting the factories. -/
def improved_factory_check (fs : List PyFile) (main_app_file : Str) : Option Str :=
  match readFile fs main_app_file with
  | none => none
  | some content =>
    let viaMain :=
      if containsSub (str "create_app") content then
        (firstSearch [matchAssignAt (str "create_app"), matchAssignDotCreateAt] content).map
          (fun app_var => module_name_of_main main_app_file ++ str ":" ++ app_var)
      else none
    match viaMain with
    | some s => some s
    | none =>
      match find_app_factories fs with
      | factory :: _ => some factory.module
      | [] => none

/-- SmartFlaskDetector._check_main_file_app_variable: the four
line-anchored assignment patterns tried in order over the main file. -/
def check_main_file_app_variable (fs : List PyFile) (main_app_file : Str) : Option Str :=
  if main_app_file.isEmpty then none
  else
    match readFile fs main_app_file with
    | none => none
    | some content =>
      (firstSearchBOL [matchAssignAt (str "Flask"), matchAssignAt (str "create_app"),
          matchAssignDotCreateAt, matchAssignAliasAt] content).map
        (fun var_name => module_name_of_main main_app_file ++ str ":" ++ var_name)

/-- SmartFlaskDetector._find_app_variable_in_file: six line-anchored
patterns over the literal names app and application. -/
def find_app_variable_in_file (content : Option Str) : Option Str :=
  match content with
  | none => none
  | some c =>
    firstSearchBOL [
      matchLitAssignAt (str "app") (str "Flask"),
      matchLitAssignAt (str "application") (str "Flask"),
      matchLitAssignAt (str "app") (str "create_app"),
      matchLitAssignAt (str "application") (str "create_app"),
      matchLitAssignCallAt (str "app"),
      matchLitAssignCallAt (str "application")] c

/-- The loop body of _check_wsgi_patterns over the conventional names. -/
def check_wsgi_go (fs : List PyFile) (main_app_file : Str) (names : List Str) : Option Str :=
  match names with
  | [] => none
  | w :: rest =>
    if fileExists fs w && !(w == basename main_app_file) then
      match find_app_variable_in_file (readFile fs w) with
      | some app_var => some ((splitext w).1 ++ str ":" ++ app_var)
      | none => check_wsgi_go fs main_app_file rest
    else check_wsgi_go fs main_app_file rest

/-- SmartFlaskDetector._check_wsgi_patterns: a sibling wsgi.py,
application.py or app.py different from the main file with a detectable
instance variable. -/
def check_wsgi_patterns (fs : List PyFile) (main_app_file : Str) : Option Str :=
  check_wsgi_go fs main_app_file [str "wsgi.py", str "application.py", str "app.py"]

/-- A candidate record of _analyze_file_for_flask_apps.  kind is the dict
key named type of the source. -/
structure AppEntry where
  kind : Str
  varName : Str
  module : Str
  file : Str
  flask_app : Str
deriving DecidableEq

/-- SmartFlaskDetector._analyze_file_for_flask_apps: line-anchored direct
Flask instantiations, then line-anchored create_app call assignments. -/
def analyze_file_for_flask_apps (path : Str) (content : Option Str) : List AppEntry :=
  match content with
  | none => []
  | some c =>
    let module_path :=
      replaceSub (str "/") (str ".")
        (replaceSub (str ".py") [] (replaceSub (str "\\") (str "/") path))
    ((findAllBOL (matchAssignAt (str "Flask")) c).map (fun v =>
      ⟨str "direct", v, module_path, path, module_path ++ str ":" ++ v⟩)) ++
    ((findAllBOL (matchAssignAt (str "create_app")) c).map (fun v =>
      ⟨str "factory_call", v, module_path, path, module_path ++ str ":" ++ v⟩))

/-- SmartFlaskDetector._deep_flask_analysis: collect all candidates
project-wide, then pick by priority (main file, conventional name, app.py
suffix, direct instantiation, main or run in the name), falling back to
the first candidate. -/
def deep_flask_analysis (fs : List PyFile) (main_app_file : Str) : Option Str :=
  let flask_apps := (fs.map (fun f => analyze_file_for_flask_apps f.path f.content)).flatten
  match flask_apps with
  | [] => none
  | a0 :: _ =>
    let picked :=
      (flask_apps.find? (fun a => a.file == main_app_file)) <|>
      (flask_apps.find? (fun a =>
        a.file == str "wsgi.py" || a.file == str "app.py" || a.file == str "application.py")) <|>
      (flask_apps.find? (fun a => (str "app.py").isSuffixOf a.file)) <|>
      (flask_apps.find? (fun a => a.kind == str "direct")) <|>
      (flask_apps.find? (fun a => containsSub (str "main") a.file || containsSub (str "run") a.file))
    some (picked.getD a0).flask_app

/-- Python truthiness of an optional string result: None and the empty
string both fail the if strategy_result test of the cascade. -/
def truthy (o : Option Str) : Option Str :=
  match o with
  | none => none
  | some s => if s.isEmpty then none else some s

/-- SmartFlaskDetector.get_flask_app_setting: the five strategies tried
in order under Python truthiness, with the module-path fallback. -/
def get_flask_app_setting (fs : List PyFile) (main_app_file : Str) : Str :=
  match truthy (check_project_specific_files fs main_app_file) with
  | some s => s
  | none =>
  match truthy (improved_factory_check fs main_app_file) with
  | some s => s
  | none =>
  match truthy (check_main_file_app_variable fs main_app_file) with
  | some s => s
  | none =>
  match truthy (check_wsgi_patterns fs main_app_file) with
  | some s => s
  | none =>
  match truthy (deep_flask_analysis fs main_app_file) with
  | some s => s
  | none => module_name_of_main main_app_file ++ str ":app"

end SmartFlaskDetector

namespace FlaskServerManager

/-- The loop of find_available_port over range(start_port, start_port +
100): bindOk models a successful socket bind of the candidate port. -/
def find_port_loop (bindOk : Nat → Bool) : Nat → Nat → Option Nat
  | _, 0 => none
  | port, n + 1 => if bindOk port then some port else find_port_loop bindOk (port + 1) n

/-- FlaskServerManager.find_available_port (identical in flask_studio.py
and flask_studio_pro.py): first bindable port in the scanned range, else
the originally requested port. -/
def find_available_port (bindOk : Nat → Bool) (start_port : Nat) : Nat :=
  match find_port_loop bindOk start_port 100 with
  | some p => p
  | none => start_port

/-- The server-state fields of FlaskServerManager touched by
stop_server: the process handle (none when no start has succeeded), the
running flag, and the status line. -/
structure ServerState where
  server_process : Option Nat
  server_running : Bool
  status_var : Str
deriving DecidableEq

/-- FlaskServerManager._server_stopped: clears the running flag and
resets the status display. -/
def server_stopped (s : ServerState) : ServerState :=
  { s with server_running := false, status_var := str "Server: Stopped" }

/-- FlaskServerManager.stop_server (identical in flask_studio.py and
flask_studio_pro.py): when a process handle exists it is terminated
through the process supervisor (escalating to kill on timeout, with all
supervisor errors caught) and the handle is cleared; in every case
_server_stopped runs.  With no handle the supervisor is never touched,
so the call cannot raise. -/
def stop_server (s : ServerState) : ServerState :=
  let s1 :=
    match s.server_process with
    | some _ => { s with server_process := none }
    | none => s
  server_stopped s1

end FlaskServerManager

/-- The synthetic project of the factory-package scenario: a single
package-init file defining a create_app factory with no module-level
assignment of its result. -/
def factoryPackageProject : List PyFile :=
  [⟨str "myapp/__init__.py",
    some (str "from flask import Flask\n\ndef create_app():\n    app = Flask(__name__)\n    return app\n")⟩]

theorem findByPatterns_mem (pats : List Str) (files : List FlaskFile) (f : FlaskFile)
    (h : FlaskStudioPro.findByPatterns pats files = some f) : f ∈ files := by
  induction pats with
  | nil => simp [FlaskStudioPro.findByPatterns] at h
  | cons p rest ih =>
    simp only [FlaskStudioPro.findByPatterns] at h
    cases hf : files.find? (fun f => basename f.path == p || lowerStr (basename f.path) == p) with
    | some g =>
      rw [hf] at h
      injection h with h
      exact h ▸ List.mem_of_find?_eq_some hf
    | none =>
      rw [hf] at h
      exact ih h

theorem findByPatterns_nil (pats : List Str) :
    FlaskStudioPro.findByPatterns pats [] = none := by
  induction pats with
  | nil => rfl
  | cons p rest ih => simp [FlaskStudioPro.findByPatterns, ih]

theorem truthy_some_ne (o : Option Str) (s : Str)
    (h : SmartFlaskDetector.truthy o = some s) : s ≠ str "" := by
  cases o with
  | none => simp [SmartFlaskDetector.truthy] at h
  | some t =>
    by_cases ht : t.isEmpty
    · simp [SmartFlaskDetector.truthy, ht] at h
    · simp only [SmartFlaskDetector.truthy, if_neg ht, Option.some.injEq] at h
      subst h
      intro hc
      exact ht (by rw [hc]; rfl)

/-- C1: detect_routing_pattern derives the routing pattern with the
priority factory over blueprint over direct over unknown: any retained
factory fact forces factory even when direct routes exist elsewhere;
otherwise any blueprint-using fact gives blueprint; otherwise any fact
with routes and no blueprints gives direct; otherwise unknown. -/
theorem detect_routing_pattern_priority (files : List FlaskFile) :
    (files.any (fun f => f.is_factory) = true →
      FlaskStudioPro.detect_routing_pattern files = str "factory") ∧
    (files.any (fun f => f.is_factory) = false →
      files.any (fun f => f.has_blueprints) = true →
      FlaskStudioPro.detect_routing_pattern files = str "blueprint") ∧
    (files.any (fun f => f.is_factory) = false →
      files.any (fun f => f.has_blueprints) = false →
      files.any (fun f => f.has_routes && !f.has_blueprints) = true →
      FlaskStudioPro.detect_routing_pattern files = str "direct") ∧
    (files.any (fun f => f.is_factory) = false →
      files.any (fun f => f.has_blueprints) = false →
      files.any (fun f => f.has_routes && !f.has_blueprints) = false →
      FlaskStudioPro.detect_routing_pattern files = str "unknown") := by
  refine ⟨?_, ?_, ?_, ?_⟩
  · intro h1
    simp [FlaskStudioPro.detect_routing_pattern, h1]
  · intro h1 h2
    simp [FlaskStudioPro.detect_routing_pattern, h1, h2]
  · intro h1 h2 h3
    simp [FlaskStudioPro.detect_routing_pattern, h1, h2, h3]
  · intro h1 h2 h3
    simp [FlaskStudioPro.detect_routing_pattern, h1, h2, h3]

/-- Witness for C1: a factory-defining file forces factory even next to
a direct-route file, and the other three branches produce their
patterns on concrete fact lists. -/
theorem detect_routing_pattern_priority_witness :
    FlaskStudioPro.detect_routing_pattern
      [⟨str "views.py", true, true, false, false, true, none⟩,
       ⟨str "factory.py", false, false, false, true, false, none⟩] = str "factory" ∧
    FlaskStudioPro.detect_routing_pattern
      [⟨str "bp.py", false, true, true, false, false, none⟩] = str "blueprint" ∧
    FlaskStudioPro.detect_routing_pattern
      [⟨str "views.py", true, true, false, false, true, none⟩] = str "direct" ∧
    FlaskStudioPro.detect_routing_pattern
      [⟨str "util.py", false, false, false, false, false, none⟩] = str "unknown" := by
  refine ⟨?_, ?_, ?_, ?_⟩
  · exact (detect_routing_pattern_priority _).1 (by decide)
  · exact (detect_routing_pattern_priority _).2.1 (by decide) (by decide)
  · exact (detect_routing_pattern_priority _).2.2.1 (by decide) (by decide) (by decide)
  · exact (detect_routing_pattern_priority _).2.2.2 (by decide) (by decide) (by decide)

/-- C10: the two near-duplicate implementations of
detect_routing_pattern, in flask_studio_pro.py and in
flask_studio_with_routing_options.py, agree on every fact sequence. -/
theorem routing_pattern_implementations_agree (files : List FlaskFile) :
    FlaskStudioPro.detect_routing_pattern files =
      FlaskStudioRouting.detect_routing_pattern files := rfl

theorem find_port_loop_eq_some (bindOk : Nat → Bool) (port n p : Nat)
    (h1 : port ≤ p) (h2 : p < port + n) (h3 : bindOk p = true)
    (h4 : ∀ q, q < p → port ≤ q → bindOk q = false) :
    FlaskServerManager.find_port_loop bindOk port n = some p := by
  induction n generalizing port with
  | zero => omega
  | succ n ih =>
    by_cases hp : port = p
    · subst hp
      simp [FlaskServerManager.find_port_loop, h3]
    · have hlt : port < p := lt_of_le_of_ne h1 hp
      have hfalse : bindOk port = false := h4 port hlt (le_refl port)
      simp only [FlaskServerManager.find_port_loop, hfalse, Bool.false_eq_true, if_false]
      exact ih (port + 1) (by omega) (by omega) (fun q hq hq2 => h4 q hq (by omega))

theorem find_port_loop_eq_none (bindOk : Nat → Bool) (port n : Nat)
    (h : ∀ q, q < port + n → port ≤ q → bindOk q = false) :
    FlaskServerManager.find_port_loop bindOk port n = none := by
  induction n generalizing port with
  | zero => rfl
  | succ n ih =>
    have hfalse : bindOk port = false := h port (by omega) (le_refl port)
    simp only [FlaskServerManager.find_port_loop, hfalse, Bool.false_eq_true, if_false]
    exact ih (port + 1) (fun q hq hq2 => h q (by omega) (by omega))

/-- C4: find_available_port returns the first bindable port in the
scanned window of one hundred candidates starting at the requested port,
and falls back to the requested port itself when the whole window fails
to bind. -/
theorem find_available_port_spec (bindOk : Nat → Bool) (start_port p : Nat) :
    (start_port ≤ p → p < start_port + 100 → bindOk p = true →
      (∀ q, q < p → start_port ≤ q → bindOk q = false) →
      FlaskServerManager.find_available_port bindOk start_port = p) ∧
    ((∀ q, q < start_port + 100 → start_port ≤ q → bindOk q = false) →
      FlaskServerManager.find_available_port bindOk start_port = start_port) := by
  constructor
  · intro h1 h2 h3 h4
    unfold FlaskServerManager.find_available_port
    rw [find_port_loop_eq_some bindOk start_port 100 p h1 h2 h3 h4]
  · intro h
    unfold FlaskServerManager.find_available_port
    rw [find_port_loop_eq_none bindOk start_port 100 h]

/-- Witness for C4: with ports 5000 through 5004 occupied and 5005 free,
a scan requested at 5000 yields 5005. -/
theorem find_available_port_spec_witness :
    FlaskServerManager.find_available_port (fun q => decide (5005 ≤ q)) 5000 = 5005 := by
  refine (find_available_port_spec (fun q => decide (5005 ≤ q)) 5000 5005).1
    (by omega) (by omega) (by simp) ?_
  intro q hq hq2
  simp only [decide_eq_false_iff_not]
  omega

/-- C9: stopping the server when no start has succeeded (no process
handle) cannot raise, leaves the running flag false, and repeated stop
calls remain safe with the flag still false. -/
theorem stop_server_no_process_safe (s : FlaskServerManager.ServerState)
    (h : s.server_process = none) :
    (FlaskServerManager.stop_server s).server_running = false ∧
    (FlaskServerManager.stop_server s).server_process = none ∧
    FlaskServerManager.stop_server (FlaskServerManager.stop_server s) =
      FlaskServerManager.stop_server s ∧
    (FlaskServerManager.stop_server (FlaskServerManager.stop_server s)).server_running
      = false := by
  cases s
  simp_all [FlaskServerManager.stop_server, FlaskServerManager.server_stopped]

/-- Witness for C9: a concrete state with no process handle. -/
theorem stop_server_no_process_safe_witness :
    (FlaskServerManager.stop_server ⟨none, true, str ""⟩).server_running = false ∧
    (FlaskServerManager.stop_server ⟨none, true, str ""⟩).server_process = none ∧
    FlaskServerManager.stop_server (FlaskServerManager.stop_server ⟨none, true, str ""⟩) =
      FlaskServerManager.stop_server (⟨none, true, str ""⟩ : FlaskServerManager.ServerState) ∧
    (FlaskServerManager.stop_server
      (FlaskServerManager.stop_server ⟨none, true, str ""⟩)).server_running = false :=
  stop_server_no_process_safe ⟨none, true, str ""⟩ rfl

/-- C6: a file whose read fails with a decode or permission error is
classified as not a Flask source of interest, is excluded from the
retained facts, and the walk continues over the remaining files
unchanged; the scan itself is a total function, so it never throws. -/
theorem unreadable_file_skipped (pre post : List PyFile) (p : Str) :
    FlaskStudioPro.is_flask_file none = false ∧
    FlaskStudioPro.find_flask_files (pre ++ ⟨p, none⟩ :: post) =
      FlaskStudioPro.find_flask_files (pre ++ post) := by
  constructor
  · rfl
  · induction pre with
    | nil => simp [FlaskStudioPro.find_flask_files, FlaskStudioPro.is_flask_file]
    | cons f rest ih => simp [FlaskStudioPro.find_flask_files, ih]

theorem find_flask_files_eq_nil (fs : List PyFile)
    (h : ∀ f ∈ fs, FlaskStudioPro.is_flask_file f.content = false) :
    FlaskStudioPro.find_flask_files fs = [] := by
  induction fs with
  | nil => rfl
  | cons f rest ih =>
    have hf : FlaskStudioPro.is_flask_file f.content = false := h f (List.mem_cons_self f rest)
    simp only [FlaskStudioPro.find_flask_files, hf, Bool.false_eq_true, if_false]
    exact ih (fun g hg => h g (List.mem_cons_of_mem f hg))

theorem find_main_app_file_nil (project_path : Str) (fs : List PyFile) :
    FlaskStudioPro.find_main_app_file project_path [] fs = none := by
  simp [FlaskStudioPro.find_main_app_file, findByPatterns_nil]

/-- C5: when no scanned file shows any Flask signal, so that no fact is
retained, analyze still returns normally (it is a total function) with
no main file, routing pattern unknown and an empty blueprint list. -/
theorem analyze_no_qualifying_file (project_path : Str) (fs : List PyFile)
    (h : ∀ f ∈ fs, FlaskStudioPro.is_flask_file f.content = false) :
    (FlaskStudioPro.analyze project_path fs).main_app_file = none ∧
    (FlaskStudioPro.analyze project_path fs).routing_pattern = str "unknown" ∧
    (FlaskStudioPro.analyze project_path fs).blueprints = [] := by
  have hff := find_flask_files_eq_nil fs h
  refine ⟨?_, ?_, ?_⟩
  · simp [FlaskStudioPro.analyze, hff, find_main_app_file_nil]
  · simp [FlaskStudioPro.analyze, hff, FlaskStudioPro.detect_routing_pattern]
  · simp [FlaskStudioPro.analyze, hff, FlaskStudioPro.detect_blueprints,
      FlaskStudioPro.detect_blueprints_go]

/-- Witness for C5: a project with one plain script and one unreadable
file, none of which qualifies. -/
theorem analyze_no_qualifying_file_witness :
    (FlaskStudioPro.analyze (str "proj")
      [⟨str "tool.py", some (str "print(1)\n")⟩, ⟨str "bad.py", none⟩]).main_app_file = none ∧
    (FlaskStudioPro.analyze (str "proj")
      [⟨str "tool.py", some (str "print(1)\n")⟩, ⟨str "bad.py", none⟩]).routing_pattern =
      str "unknown" ∧
    (FlaskStudioPro.analyze (str "proj")
      [⟨str "tool.py", some (str "print(1)\n")⟩, ⟨str "bad.py", none⟩]).blueprints = [] :=
  analyze_no_qualifying_file (str "proj")
    [⟨str "tool.py", some (str "print(1)\n")⟩, ⟨str "bad.py", none⟩] (by decide)

/-- C8: on the synthetic project whose only Flask file is
myapp/__init__.py defining a create_app factory with no module-level
assignment of its result, analysis selects that file as the main file
and the launcher-string detector returns the bare package module path
myapp, with no colon-variable suffix. -/
theorem factory_package_bare_module :
    (FlaskStudioPro.analyze (str "proj") factoryPackageProject).main_app_file =
      some (str "myapp/__init__.py") ∧
    SmartFlaskDetector.get_flask_app_setting factoryPackageProject
      (str "myapp/__init__.py") = str "myapp" ∧
    containsSub (str ":")
      (SmartFlaskDetector.get_flask_app_setting factoryPackageProject
        (str "myapp/__init__.py")) = false := by
  refine ⟨by decide, by decide, by decide⟩

/-- C2: the launcher-string computation never returns an empty string,
and when every strategy of the cascade defers (returns a Python-falsy
result) it returns the deterministic fallback, the module path derived
from the main file followed by colon app. -/
theorem get_flask_app_setting_total (fs : List PyFile) (main_app_file : Str) :
    SmartFlaskDetector.get_flask_app_setting fs main_app_file ≠ str "" ∧
    (SmartFlaskDetector.truthy
        (SmartFlaskDetector.check_project_specific_files fs main_app_file) = none →
     SmartFlaskDetector.truthy
        (SmartFlaskDetector.improved_factory_check fs main_app_file) = none →
     SmartFlaskDetector.truthy
        (SmartFlaskDetector.check_main_file_app_variable fs main_app_file) = none →
     SmartFlaskDetector.truthy
        (SmartFlaskDetector.check_wsgi_patterns fs main_app_file) = none →
     SmartFlaskDetector.truthy
        (SmartFlaskDetector.deep_flask_analysis fs main_app_file) = none →
     SmartFlaskDetector.get_flask_app_setting fs main_app_file =
       SmartFlaskDetector.module_name_of_main main_app_file ++ str ":app") := by
  constructor
  · unfold SmartFlaskDetector.get_flask_app_setting
    cases h1 : SmartFlaskDetector.truthy
        (SmartFlaskDetector.check_project_specific_files fs main_app_file) with
    | some s => exact truthy_some_ne _ _ h1
    | none =>
    cases h2 : SmartFlaskDetector.truthy
        (SmartFlaskDetector.improved_factory_check fs main_app_file) with
    | some s => exact truthy_some_ne _ _ h2
    | none =>
    cases h3 : SmartFlaskDetector.truthy
        (SmartFlaskDetector.check_main_file_app_variable fs main_app_file) with
    | some s => exact truthy_some_ne _ _ h3
    | none =>
    cases h4 : SmartFlaskDetector.truthy
        (SmartFlaskDetector.check_wsgi_patterns fs main_app_file) with
    | some s => exact truthy_some_ne _ _ h4
    | none =>
    cases h5 : SmartFlaskDetector.truthy
        (SmartFlaskDetector.deep_flask_analysis fs main_app_file) with
    | some s => exact truthy_some_ne _ _ h5
    | none =>
      intro hc
      have hlen := congrArg List.length hc
      simp [str] at hlen
  · intro h1 h2 h3 h4 h5
    simp only [SmartFlaskDetector.get_flask_app_setting, h1, h2, h3, h4, h5]

/-- Witness for C2: on an empty project with main file main.py every
strategy defers and the result is the fallback main:app. -/
theorem get_flask_app_setting_total_witness :
    SmartFlaskDetector.get_flask_app_setting [] (str "main.py") = str "main:app" := by
  have h := (get_flask_app_setting_total [] (str "main.py")).2
    (by decide) (by decide) (by decide) (by decide) (by decide)
  rw [h]
  decide

theorem pro_find_main_mem (project_path : Str) (files : List FlaskFile) (fs : List PyFile)
    (p : Str) (h : FlaskStudioPro.find_main_app_file project_path files fs = some p) :
    p ∈ files.map (fun f => f.path) := by
  simp only [FlaskStudioPro.find_main_app_file] at h
  split at h
  next f heq =>
    injection h with h
    subst h
    exact List.mem_map_of_mem _ (List.mem_of_mem_filter (findByPatterns_mem _ _ _ heq))
  next =>
  split at h
  next f heq =>
    injection h with h
    subst h
    exact List.mem_map_of_mem _
      (List.mem_of_mem_filter (List.mem_of_mem_filter (findByPatterns_mem _ _ _ heq)))
  next =>
  split at h
  next f tail heq =>
    injection h with h
    subst h
    have hf : f ∈ files.filter (fun f => f.has_app_run) := by
      rw [heq]; exact List.mem_cons_self f tail
    exact List.mem_map_of_mem _ (List.mem_of_mem_filter hf)
  next =>
  split at h
  next f heq =>
    injection h with h
    subst h
    exact List.mem_map_of_mem _ (List.mem_of_find?_eq_some heq)
  next =>
  split at h
  next f tail heq =>
    injection h with h
    subst h
    have hf : f ∈ (files.filter (fun f => f.is_factory)).filter
        (fun f => !(str "__init__.py").isSuffixOf f.path) := by
      rw [heq]; exact List.mem_cons_self f tail
    exact List.mem_map_of_mem _ (List.mem_of_mem_filter (List.mem_of_mem_filter hf))
  next =>
  split at h
  next f tail heq =>
    injection h with h
    subst h
    have hf : f ∈ files.filter (fun f => f.is_factory) := by
      rw [heq]; exact List.mem_cons_self f tail
    exact List.mem_map_of_mem _ (List.mem_of_mem_filter hf)
  next => exact absurd h (by simp)

theorem ro_find_main_mem (project_path : Str) (files : List FlaskFile)
    (p : Str) (h : FlaskStudioRouting.find_main_app_file project_path files = some p) :
    p ∈ files.map (fun f => f.path) := by
  simp only [FlaskStudioRouting.find_main_app_file] at h
  split at h
  next f heq =>
    injection h with h
    subst h
    exact List.mem_map_of_mem _ (List.mem_of_mem_filter (findByPatterns_mem _ _ _ heq))
  next =>
  split at h
  next f heq =>
    injection h with h
    subst h
    exact List.mem_map_of_mem _ (List.mem_of_mem_filter (findByPatterns_mem _ _ _ heq))
  next =>
  split at h
  next f tail heq =>
    injection h with h
    subst h
    have hf : f ∈ files.filter (fun f => f.has_app_run) := by
      rw [heq]; exact List.mem_cons_self f tail
    exact List.mem_map_of_mem _ (List.mem_of_mem_filter hf)
  next =>
  split at h
  next f tail heq =>
    injection h with h
    subst h
    have hf : f ∈ files.filter (fun f => f.is_factory) := by
      rw [heq]; exact List.mem_cons_self f tail
    exact List.mem_map_of_mem _ (List.mem_of_mem_filter hf)
  next =>
  split at h
  next =>
    injection h with h
    subst h
    exact List.mem_map_of_mem _ (List.mem_cons_self _ _)
  next => exact absurd h (by simp)

/-- C3: after analysis the chosen main file, when present, is the
relative path of one of the retained facts: every branch of the
selection cascade, in both near-duplicate implementations, picks from
the retained fact list only. -/
theorem main_file_is_retained_path (project_path : Str) (fs : List PyFile)
    (files : List FlaskFile) (p q : Str) :
    ((FlaskStudioPro.analyze project_path fs).main_app_file = some p →
      p ∈ (FlaskStudioPro.analyze project_path fs).flask_files.map (fun f => f.path)) ∧
    (FlaskStudioRouting.find_main_app_file project_path files = some q →
      q ∈ files.map (fun f => f.path)) :=
  ⟨fun h => pro_find_main_mem project_path (FlaskStudioPro.find_flask_files fs) fs p h,
   fun h => ro_find_main_mem project_path files q h⟩

/-- Witness for C3: on a one-file runnable project both implementations
choose app.py, which is a retained fact path. -/
theorem main_file_is_retained_path_witness :
    str "app.py" ∈
      (FlaskStudioPro.analyze (str "demo")
        [⟨str "app.py",
          some (str "from flask import Flask\napp = Flask(__name__)\napp.run()\n")⟩]).flask_files.map
        (fun f => f.path) ∧
    str "app.py" ∈
      ([⟨str "app.py", true, false, false, false, true, some (str "app")⟩] :
        List FlaskFile).map (fun f => f.path) := by
  constructor
  · exact (main_file_is_retained_path (str "demo")
      [⟨str "app.py",
        some (str "from flask import Flask\napp = Flask(__name__)\napp.run()\n")⟩]
      [] (str "app.py") (str "")).1 (by decide)
  · exact (main_file_is_retained_path (str "demo") []
      [⟨str "app.py", true, false, false, false, true, some (str "app")⟩]
      (str "") (str "app.py")).2 (by decide)

theorem register_pass_mem_mono (path : Str) (regs : List Str) (acc : List BlueprintInfo)
    (x : BlueprintInfo) (hx : x ∈ acc) :
    x ∈ FlaskStudioPro.register_pass path acc regs := by
  induction regs generalizing acc with
  | nil => exact hx
  | cons v rest ih =>
    simp only [FlaskStudioPro.register_pass]
    split
    · exact ih acc hx
    · exact ih (acc ++ [⟨v, v, path⟩]) (List.mem_append_left _ hx)

theorem register_pass_covers (path : Str) (regs : List Str) (acc : List BlueprintInfo)
    (v : Str) (hv : v ∈ regs) :
    ∃ e ∈ FlaskStudioPro.register_pass path acc regs, e.varName = v := by
  induction regs generalizing acc with
  | nil => cases hv
  | cons w rest ih =>
    rcases List.mem_cons.mp hv with hvw | hvr
    · subst hvw
      simp only [FlaskStudioPro.register_pass]
      cases hany : acc.any (fun bp => bp.varName == v) with
      | true =>
        obtain ⟨e, he, hbeq⟩ := List.any_eq_true.mp hany
        have hev : e.varName = v := by simpa using hbeq
        exact ⟨e, register_pass_mem_mono path rest acc e he, hev⟩
      | false =>
        simp only [Bool.false_eq_true, if_false]
        refine ⟨⟨v, v, path⟩, register_pass_mem_mono path rest _ _ ?_, rfl⟩
        exact List.mem_append_right _ (List.mem_singleton.mpr rfl)
    · simp only [FlaskStudioPro.register_pass]
      split
      · exact ih acc hvr
      · exact ih _ hvr

theorem register_pass_src (path : Str) (regs : List Str) (acc : List BlueprintInfo)
    (e : BlueprintInfo) (he : e ∈ FlaskStudioPro.register_pass path acc regs) :
    e ∈ acc ∨ ∃ v, e = ⟨v, v, path⟩ ∧ ∀ x ∈ acc, x.varName ≠ v := by
  induction regs generalizing acc with
  | nil => exact Or.inl he
  | cons w rest ih =>
    simp only [FlaskStudioPro.register_pass] at he
    by_cases hany : acc.any (fun bp => bp.varName == w) = true
    · rw [if_pos hany] at he
      exact ih acc he
    · rw [if_neg hany] at he
      have hnone : ∀ x ∈ acc, x.varName ≠ w := by
        intro x hx hxw
        exact hany (List.any_eq_true.mpr ⟨x, hx, by simp [hxw]⟩)
      rcases ih _ he with hmem | ⟨v, hev, hall⟩
      · rcases List.mem_append.mp hmem with hacc | hnew
        · exact Or.inl hacc
        · refine Or.inr ⟨w, ?_, hnone⟩
          simpa using hnew
      · exact Or.inr ⟨v, hev, fun x hx => hall x (List.mem_append_left _ hx)⟩

/-- C7: for a scanned blueprint-using file, extraction merges the two
regex passes: every Blueprint declaration yields its record, every
registration variable is represented, a registration whose variable no
declaration names still appears keyed by that variable, and any record
whose variable some declaration names comes from a declaration, so
declarations take precedence over registrations of the same variable. -/
theorem detect_blueprints_two_pass_union (f : FlaskFile) (fs : List PyFile) (c : Str)
    (hbp : f.has_blueprints = true) (hc : readFile fs f.path = some c) :
    (∀ vn ∈ FlaskStudioPro.blueprint_decls c,
      (⟨vn.2, vn.1, f.path⟩ : BlueprintInfo) ∈ FlaskStudioPro.detect_blueprints [f] fs) ∧
    (∀ v ∈ FlaskStudioPro.register_matches c,
      ∃ e ∈ FlaskStudioPro.detect_blueprints [f] fs, e.varName = v) ∧
    (∀ v ∈ FlaskStudioPro.register_matches c,
      (∀ vn ∈ FlaskStudioPro.blueprint_decls c, vn.1 ≠ v) →
      (⟨v, v, f.path⟩ : BlueprintInfo) ∈ FlaskStudioPro.detect_blueprints [f] fs) ∧
    (∀ e ∈ FlaskStudioPro.detect_blueprints [f] fs,
      e.varName ∈ (FlaskStudioPro.blueprint_decls c).map (fun vn => vn.1) →
      (e.varName, e.name) ∈ FlaskStudioPro.blueprint_decls c) := by
  have hR : FlaskStudioPro.detect_blueprints [f] fs =
      FlaskStudioPro.register_pass f.path
        ((FlaskStudioPro.blueprint_decls c).map (fun p => ⟨p.2, p.1, f.path⟩))
        (FlaskStudioPro.register_matches c) := by
    simp [FlaskStudioPro.detect_blueprints, FlaskStudioPro.detect_blueprints_go, hbp, hc]
  refine ⟨?_, ?_, ?_, ?_⟩
  · intro vn hvn
    rw [hR]
    exact register_pass_mem_mono _ _ _ _ (List.mem_map_of_mem _ hvn)
  · intro v hv
    rw [hR]
    exact register_pass_covers _ _ _ v hv
  · intro v hv hnotdecl
    obtain ⟨e, he, hev⟩ := register_pass_covers f.path (FlaskStudioPro.register_matches c)
      ((FlaskStudioPro.blueprint_decls c).map (fun p => ⟨p.2, p.1, f.path⟩)) v hv
    rcases register_pass_src _ _ _ _ he with hdecl | ⟨w, hew, _⟩
    · obtain ⟨vn, hvn, hvne⟩ := List.mem_map.mp hdecl
      exfalso
      apply hnotdecl vn hvn
      rw [← hev, ← hvne]
    · rw [hR]
      have hwv : w = v := by rw [hew] at hev; exact hev
      subst hwv
      exact hew ▸ he
  · intro e he hvar
    rw [hR] at he
    rcases register_pass_src _ _ _ _ he with hdecl | ⟨w, hew, hall⟩
    · obtain ⟨vn, hvn, hvne⟩ := List.mem_map.mp hdecl
      have h1 : e.varName = vn.1 := by rw [← hvne]
      have h2 : e.name = vn.2 := by rw [← hvne]
      rw [h1, h2]
      simpa using hvn
    · exfalso
      obtain ⟨vn, hvn, hvne⟩ := List.mem_map.mp hvar
      have hwvar : e.varName = w := by rw [hew]
      apply hall ⟨vn.2, vn.1, f.path⟩ (List.mem_map_of_mem _ hvn)
      simp only []
      rw [hvne, hwvar]

/-- Witness for C7: a file declaring blueprint variable main with name
home and registering both main and api yields the declaration record,
covers both registrations, adds the undeclared api keyed by itself, and
the record whose variable is main is the declaration record. -/
theorem detect_blueprints_two_pass_union_witness :
    ((⟨str "home", str "main", str "site.py"⟩ : BlueprintInfo) ∈
      FlaskStudioPro.detect_blueprints
        [⟨str "site.py", false, false, true, false, false, none⟩]
        [⟨str "site.py",
          some (str "from flask import Blueprint\nmain = Blueprint(\"home\", __name__)\napp.register_blueprint(main)\napp.register_blueprint(api)\n")⟩]) ∧
    ((⟨str "api", str "api", str "site.py"⟩ : BlueprintInfo) ∈
      FlaskStudioPro.detect_blueprints
        [⟨str "site.py", false, false, true, false, false, none⟩]
        [⟨str "site.py",
          some (str "from flask import Blueprint\nmain = Blueprint(\"home\", __name__)\napp.register_blueprint(main)\napp.register_blueprint(api)\n")⟩]) ∧
    (str "main", str "home") ∈ FlaskStudioPro.blueprint_decls
      (str "from flask import Blueprint\nmain = Blueprint(\"home\", __name__)\napp.register_blueprint(main)\napp.register_blueprint(api)\n") := by
  refine ⟨?_, ?_, ?_⟩
  · exact (detect_blueprints_two_pass_union
      ⟨str "site.py", false, false, true, false, false, none⟩
      [⟨str "site.py",
        some (str "from flask import Blueprint\nmain = Blueprint(\"home\", __name__)\napp.register_blueprint(main)\napp.register_blueprint(api)\n")⟩]
      (str "from flask import Blueprint\nmain = Blueprint(\"home\", __name__)\napp.register_blueprint(main)\napp.register_blueprint(api)\n")
      (by decide) (by decide)).1 (str "main", str "home") (by decide)
  · exact (detect_blueprints_two_pass_union
      ⟨str "site.py", false, false, true, false, false, none⟩
      [⟨str "site.py",
        some (str "from flask import Blueprint\nmain = Blueprint(\"home\", __name__)\napp.register_blueprint(main)\napp.register_blueprint(api)\n")⟩]
      (str "from flask import Blueprint\nmain = Blueprint(\"home\", __name__)\napp.register_blueprint(main)\napp.register_blueprint(api)\n")
      (by decide) (by decide)).2.2.1 (str "api") (by decide) (by decide)
  · exact (detect_blueprints_two_pass_union
      ⟨str "site.py", false, false, true, false, false, none⟩
      [⟨str "site.py",
        some (str "from flask import Blueprint\nmain = Blueprint(\"home\", __name__)\napp.register_blueprint(main)\napp.register_blueprint(api)\n")⟩]
      (str "from flask import Blueprint\nmain = Blueprint(\"home\", __name__)\napp.register_blueprint(main)\napp.register_blueprint(api)\n")
      (by decide) (by decide)).2.2.2
      ⟨str "home", str "main", str "site.py"⟩ (by decide) (by decide)
